import Mathlib

/-!
Shallow embedding of `src/index.js` of `express-oauth-server`: an Express
adapter around the `oauth2-server` engine.  The middleware returned by each
of the four flow methods (`authenticate`, `authorize`, `token`, `revoke`)
is modelled as a pure function from the engine call's outcome (and the
`ProtocolResponse` the engine populated) to the ordered list of observable
effects it performs on the Express request/response pair: locals writes,
header application, status writes, body sends, redirects, and calls to the
pipeline-advance function `next`.

Receiver semantics, which matter for `handleError`: the source defines
`var handleError = function(e, req, res, response, next) {...}` and every
flow invokes it as a plain call `handleError(e, req, res, response, next)`
(no `.call(this, ...)`).  The module is non-strict CommonJS, so inside
`handleError` the receiver `this` is the global object, whose
`useErrorHandler` property is absent (`undefined`).  We therefore model the
receiver's `useErrorHandler` as an `Option Bool`, with `none` meaning "the
property is absent on the receiver"; the strict-equality test
`this.useErrorHandler === true` becomes `recvUseErrorHandler = some true`.
At the flow call sites the argument is `globalRecvUseErrorHandler = none`.
The flag configured at construction is kept on the instance
(`Instance.useErrorHandler`) exactly as `this.useErrorHandler = ...` does,
but no code path of the flows reads it, mirroring the source.
-/

set_option autoImplicit false

namespace EOAS

/-- Error kinds of the `oauth2-server` error hierarchy that `index.js`
distinguishes with `instanceof`: `InvalidArgumentError`,
`UnauthorizedRequestError`, `InvalidTokenError`, and every other
`OAuthError` (the generic case).  The classes are siblings, so a single
tag is faithful to the `instanceof` tests. -/
inductive ErrorKind : Type
  | invalidArgument
  | unauthorizedRequest
  | invalidToken
  | generic
deriving DecidableEq, Repr

/-- A protocol error as the adapter observes it: its kind plus the
`code` / `name` / `message` fields every `oauth2-server` error carries. -/
structure OAuthErr : Type where
  kind : ErrorKind
  code : Nat
  name : String
  message : String
deriving DecidableEq, Repr

/-- Outcome of an asynchronous engine call: the fulfilled value, or the
rejection error caught by the flow's `.catch`. -/
inductive Outcome (A : Type) : Type
  | success (v : A)
  | failure (e : OAuthErr)
deriving DecidableEq, Repr

/-- Headers of a `ProtocolResponse`: a JS object, i.e. a finite mapping
from header name to value.  Modelled as an association list; `delete`
removes the key entirely and reads take the first binding. -/
abbrev Headers : Type := List (String × String)

/-- `headers[name]`: first binding for `name`, if any. -/
def getHeader (hs : Headers) (nm : String) : Option String :=
  (hs.find? (fun p => p.1 = nm)).map (fun p => p.2)

/-- `delete headers[name]`: the key is gone afterwards. -/
def deleteHeader (hs : Headers) (nm : String) : Headers :=
  hs.filter (fun p => ¬ p.1 = nm)

/-- The engine-facing `Response` object after the engine call settled:
an integer `status`, a headers mapping, and a `body` payload, each possibly
still `undefined` (the engine may or may not have populated them). -/
structure ProtocolResponse : Type where
  status : Option Nat
  headers : Headers
  body : Option String
deriving DecidableEq, Repr

/-- Body payloads passed to Express `res.send`. -/
inductive Payload : Type
  /-- `res.send()` with no argument. -/
  | empty
  /-- `res.send(response.body)`: the engine body verbatim. -/
  | raw (b : Option String)
  /-- `res.send({ error: e.name, error_description: e.message })`. -/
  | errJson (error errorDescription : String)
deriving DecidableEq, Repr

/-- One observable effect of a middleware invocation, in program order. -/
inductive Act : Type
  /-- `res.locals.oauth = { token: token }` -/
  | setLocalsToken (t : String)
  /-- `res.locals.oauth = { code: code }` -/
  | setLocalsCode (c : String)
  /-- `res.locals.invalidTokenOnRevoke = true` -/
  | setLocalsInvalidTokenOnRevoke
  /-- `res.set(headers)` -/
  | setHeaders (hs : Headers)
  /-- `res.status(s)` (`s = none` models `res.status(undefined)`) -/
  | setStatus (s : Option Nat)
  /-- `res.send(p)` -/
  | send (p : Payload)
  /-- `res.redirect(location)` -/
  | redirect (location : Option String)
  /-- `next()` -/
  | callNext
  /-- `next(e)` -/
  | callNextErr (e : OAuthErr)
deriving DecidableEq, Repr

/-- The adapter instance built by the constructor: it stores the extracted
`useErrorHandler` flag and the engine (abstracted away; engine results are
supplied to the flows as `Outcome`s). -/
structure Instance : Type where
  useErrorHandler : Bool
deriving DecidableEq, Repr

/-- Receiver of the plain calls `handleError(e, req, res, response, next)`:
the global object, which has no `useErrorHandler` property. -/
def globalRecvUseErrorHandler : Option Bool := none

/-- `handleResponse(req, res, response)`, lines 160-172 of `index.js`:

```
if (response.status === 302) {
  var location = response.headers.location;
  delete response.headers.location;
  res.set(response.headers);
  res.redirect(location);
} else {
  res.set(response.headers);
  res.status(response.status).send(response.body);
}
``` -/
def handleResponse (response : ProtocolResponse) : List Act :=
  if response.status = some 302 then
    let location := getHeader response.headers "location"
    let headers := deleteHeader response.headers "location"
    [Act.setHeaders headers, Act.redirect location]
  else
    [Act.setHeaders response.headers, Act.setStatus response.status,
     Act.send (Payload.raw response.body)]

/-- `handleError(e, req, res, response, next)`, lines 178-206 of
`index.js`.  `recvUseErrorHandler` is the receiver's `useErrorHandler`
property (`none` = absent; always `none` at the source's call sites, see
the module docstring).  `localsInvalidTokenOnRevoke` is the value of
`res.locals.invalidTokenOnRevoke` when the check on line 200 runs.

```
if (this.useErrorHandler === true) {
  next(e);
} else {
  if (response) { res.set(response.headers); }
  if (e instanceof UnauthorizedRequestError) { return res.status(e.code); }
  if (res.locals.invalidTokenOnRevoke) { return res.status(200).send(); }
  res.status(e.code).send({ error: e.name, error_description: e.message });
}
``` -/
def handleError (recvUseErrorHandler : Option Bool) (e : OAuthErr)
    (response : Option ProtocolResponse)
    (localsInvalidTokenOnRevoke : Bool) : List Act :=
  if recvUseErrorHandler = some true then
    [Act.callNextErr e]
  else
    (match response with
     | some r => [Act.setHeaders r.headers]
     | none => []) ++
    (if e.kind = ErrorKind.unauthorizedRequest then
      [Act.setStatus (some e.code)]
    else if localsInvalidTokenOnRevoke then
      [Act.setStatus (some 200), Act.send Payload.empty]
    else
      [Act.setStatus (some e.code),
       Act.send (Payload.errJson e.name e.message)])

/-- The middleware returned by `ExpressOAuthServer.prototype.authenticate`,
lines 39-58.  On fulfilment the `.tap` writes `res.locals.oauth` and calls
`next()`; on rejection the `.catch` runs `handleError` with a `null`
response.  There is no `.finally(next)` on this flow.  `res.locals` is a
fresh object per request, so `invalidTokenOnRevoke` reads as falsy. -/
def authenticate (inst : Instance) (outcome : Outcome String) : List Act :=
  match inst, outcome with
  | _, Outcome.success t => [Act.setLocalsToken t, Act.callNext]
  | _, Outcome.failure e => handleError globalRecvUseErrorHandler e none false

/-- The middleware returned by `ExpressOAuthServer.prototype.authorize`,
lines 68-90: `.tap` writes `res.locals.oauth = { code }` on fulfilment,
then `handleResponse` runs; on rejection `handleError` runs with the
engine's response; `.finally(next)` advances the pipeline on either path. -/
def authorize (inst : Instance) (response : ProtocolResponse)
    (outcome : Outcome String) : List Act :=
  (match inst, outcome with
   | _, Outcome.success c => Act.setLocalsCode c :: handleResponse response
   | _, Outcome.failure e =>
       handleError globalRecvUseErrorHandler e (some response) false) ++
  [Act.callNext]

/-- The middleware returned by `ExpressOAuthServer.prototype.token`,
lines 100-122: identical to `authorize` except the `.tap` stores
`res.locals.oauth = { token }`. -/
def token (inst : Instance) (response : ProtocolResponse)
    (outcome : Outcome String) : List Act :=
  (match inst, outcome with
   | _, Outcome.success t => Act.setLocalsToken t :: handleResponse response
   | _, Outcome.failure e =>
       handleError globalRecvUseErrorHandler e (some response) false) ++
  [Act.callNext]

/-- The middleware returned by `ExpressOAuthServer.prototype.revoke`,
lines 132-155: no locals attachment on fulfilment; on rejection the
`.catch` first sets `res.locals.invalidTokenOnRevoke = true` when the
error is an `InvalidTokenError`, then runs `handleError`, which reads that
same request-scoped field on line 200; `.finally(next)` always runs. -/
def revoke (inst : Instance) (response : ProtocolResponse)
    (outcome : Outcome Unit) : List Act :=
  (match inst, outcome with
   | _, Outcome.success _ => handleResponse response
   | _, Outcome.failure e =>
       let itr : Bool := e.kind = ErrorKind.invalidToken
       (if itr then [Act.setLocalsInvalidTokenOnRevoke] else []) ++
       handleError globalRecvUseErrorHandler e (some response) itr) ++
  [Act.callNext]

/-- Whether an action is a call to the pipeline-advance function `next`,
with or without an error argument. -/
def isNextLike (a : Act) : Bool :=
  match a with
  | Act.callNext => true
  | Act.callNextErr _ => true
  | _ => false

/-- Number of calls to the pipeline-advance function `next`, with or
without an error argument. -/
def nextCount (tr : List Act) : Nat :=
  (tr.filter isNextLike).length

/-- The sequence of `res.status(...)` writes in a trace. -/
def statusWrites (tr : List Act) : List (Option Nat) :=
  tr.filterMap (fun a =>
    match a with
    | Act.setStatus s => some s
    | _ => none)

/-- The sequence of `res.send(...)` payloads in a trace. -/
def sendWrites (tr : List Act) : List Payload :=
  tr.filterMap (fun a =>
    match a with
    | Act.send p => some p
    | _ => none)

/-- The sequence of `res.redirect(...)` targets in a trace. -/
def redirectWrites (tr : List Act) : List (Option String) :=
  tr.filterMap (fun a =>
    match a with
    | Act.redirect l => some l
    | _ => none)

/-- Whether an action writes the `res.locals.oauth` side-channel slot. -/
def writesOAuthLocals (a : Act) : Bool :=
  match a with
  | Act.setLocalsToken _ => true
  | Act.setLocalsCode _ => true
  | _ => false

/-- Whether an action hands the error to the upstream error handler. -/
def isNextErr (a : Act) : Bool :=
  match a with
  | Act.callNextErr _ => true
  | _ => false

/-- Configuration object handed to the constructor.  `model` is the
engine's model object (`none` = property absent; it is an object, so
presence means truthy).  `useErrorHandler` is the optional boolean option
(`none` = absent, which is falsy).  `rest` stands for the remaining
engine-tuning options forwarded unmodified to the engine constructor. -/
structure Options : Type where
  model : Option String
  useErrorHandler : Option Bool
  rest : List (String × String)
deriving DecidableEq, Repr

/-- Observable events of the constructor body. -/
inductive CtorEvent : Type
  /-- `throw new InvalidArgumentError(message)` -/
  | throwInvalidArgument (message : String)
  /-- `this.server = new NodeOAuthServer(options)` with the surviving
  options (the `model` plus the pass-through rest; `useErrorHandler` has
  been deleted). -/
  | newNodeOAuthServer (model : String) (rest : List (String × String))
deriving DecidableEq, Repr

/-- Whether a constructor event is the engine-constructor invocation. -/
def isEngineCtor (ev : CtorEvent) : Bool :=
  match ev with
  | CtorEvent.newNodeOAuthServer _ _ => true
  | _ => false

/-- The `InvalidArgumentError` thrown on a missing `model`
(`oauth2-server` gives this class code 500 and name `invalid_argument`). -/
def invalidArgumentMissingModel : OAuthErr :=
  { kind := ErrorKind.invalidArgument
    code := 500
    name := "invalid_argument"
    message := "Missing parameter: `model`" }

/-- `function ExpressOAuthServer(options)`, lines 18-29 of `index.js`:

```
if (!options.model) {
  throw new InvalidArgumentError('Missing parameter: `model`');
}
this.useErrorHandler = options.useErrorHandler ? true : false;
delete options.useErrorHandler;
this.server = new NodeOAuthServer(options);
```

The returned pair is the synchronous result (the constructed instance, or
the thrown error) together with the ordered event list of the body. -/
def ExpressOAuthServer (opts : Options) :
    Except OAuthErr Instance × List CtorEvent :=
  match opts.model with
  | none =>
      (Except.error invalidArgumentMissingModel,
       [CtorEvent.throwInvalidArgument "Missing parameter: `model`"])
  | some m =>
      (Except.ok { useErrorHandler := decide (opts.useErrorHandler = some true) },
       [CtorEvent.newNodeOAuthServer m opts.rest])

/-- The mutable state living on the adapter instance itself, shared by all
requests the instance serves.  In this source the flows only ever read it;
`useErrorHandler` is assigned once, in the constructor. -/
structure InstState : Type where
  useErrorHandler : Bool
deriving DecidableEq, Repr

/-- One revoke-middleware invocation with the instance state threaded
through.  The body of the middleware (lines 135-154) performs no
assignment to any instance field: its only writes target `res.locals`
(request-scoped, recorded in the trace) and the HTTP response, so the
instance state passes through unchanged. -/
def revokeRun (s : InstState) (response : ProtocolResponse)
    (outcome : Outcome Unit) : InstState × List Act :=
  (s, revoke { useErrorHandler := s.useErrorHandler } response outcome)

namespace RelatedVariant

/-!
The source document also carries (after the separator) an earlier variant
of the same module in which the revoke flow stores the flag on the adapter
instance — `this.invalidTokenOnRevoke = true` — and `handleError` is
invoked via `.call(this, ...)`, reading `this.useErrorHandler` and
`this.invalidTokenOnRevoke` from that same shared instance.  It is
embedded here only as a contrast, to show that the request-scoped
placement used by the current `index.js` is what makes the two-run
non-interference property below hold: with instance scoping it fails.
-/

/-- Instance state of the related variant: `useErrorHandler` plus the
`invalidTokenOnRevoke` field the revoke flow writes onto `this`
(initially absent, i.e. falsy). -/
structure VState : Type where
  useErrorHandler : Bool
  invalidTokenOnRevoke : Bool
deriving DecidableEq, Repr

/-- The related variant's revoke middleware (source lines after the
separator): the `.catch` sets `this.invalidTokenOnRevoke = true` on an
`InvalidTokenError`, then `handleError.call(this, ...)` reads both flags
from the instance. -/
def revokeRun (s : VState) (response : ProtocolResponse)
    (outcome : Outcome Unit) : VState × List Act :=
  match outcome with
  | Outcome.success _ => (s, handleResponse response ++ [Act.callNext])
  | Outcome.failure e =>
      let s2 : VState :=
        if e.kind = ErrorKind.invalidToken then
          { s with invalidTokenOnRevoke := true }
        else s
      (s2,
       handleError (some s2.useErrorHandler) e (some response)
         s2.invalidTokenOnRevoke ++ [Act.callNext])

end RelatedVariant

end EOAS

namespace EOAS

/-! Helper lemmas shared by the claim theorems. -/

theorem nextCount_append (l1 l2 : List Act) :
    nextCount (l1 ++ l2) = nextCount l1 + nextCount l2 := by
  simp [nextCount, List.filter_append]

theorem nextCount_handleResponse (r : ProtocolResponse) :
    nextCount (handleResponse r) = 0 := by
  unfold handleResponse
  split <;> rfl

theorem nextCount_handleError_global (e : OAuthErr)
    (resp : Option ProtocolResponse) (itr : Bool) :
    nextCount (handleError globalRecvUseErrorHandler e resp itr) = 0 := by
  cases resp <;>
    by_cases hk : e.kind = ErrorKind.unauthorizedRequest <;>
    cases itr <;>
    simp [handleError, globalRecvUseErrorHandler, hk, nextCount, isNextLike]

theorem handleError_global_no_oauth_locals (e : OAuthErr)
    (resp : Option ProtocolResponse) (itr : Bool) :
    (handleError globalRecvUseErrorHandler e resp itr).filter
      writesOAuthLocals = [] := by
  cases resp <;>
    by_cases hk : e.kind = ErrorKind.unauthorizedRequest <;>
    cases itr <;>
    simp [handleError, globalRecvUseErrorHandler, hk, writesOAuthLocals]

theorem nextCount_nil : nextCount [] = 0 := rfl

theorem nextCount_singleton_next : nextCount [Act.callNext] = 1 := rfl

theorem nextCount_cons_other (a : Act) (l : List Act)
    (h : isNextLike a = false) : nextCount (a :: l) = nextCount l := by
  simp [nextCount, List.filter_cons, h]

theorem getHeader_deleteHeader (hs : Headers) (nm : String) :
    getHeader (deleteHeader hs nm) nm = none := by
  induction hs with
  | nil => rfl
  | cons p tl ih =>
      by_cases h : p.1 = nm
      · rw [show deleteHeader (p :: tl) nm = deleteHeader tl nm by
          simp [deleteHeader, h]]
        exact ih
      · rw [show deleteHeader (p :: tl) nm = p :: deleteHeader tl nm by
          simp [deleteHeader, h]]
        rw [show getHeader (p :: deleteHeader tl nm) nm =
            getHeader (deleteHeader tl nm) nm by
          simp [getHeader, List.find?, h]]
        exact ih

end EOAS

namespace EOAS

/-- Claim C1, counterexample: the claim says every invocation of each of
the four flow middlewares calls `next` exactly once on every exit path.
It fails for the authenticate flow on an engine failure: `authenticate`
has no `.finally(next)`, and with the effective `useErrorHandler` check
false the error path writes the HTTP error response without ever calling
`next` — here a generic 400 protocol error yields zero `next` calls. -/
theorem claim_C1_counterexample :
    nextCount (authenticate { useErrorHandler := false }
      (Outcome.failure
        { kind := ErrorKind.generic, code := 400,
          name := "invalid_request", message := "bad" })) = 0 ∧
    ¬ nextCount (authenticate { useErrorHandler := false }
      (Outcome.failure
        { kind := ErrorKind.generic, code := 400,
          name := "invalid_request", message := "bad" })) = 1 := by
  constructor <;> decide

/-- Claim C1, amended: for the authorize, token and revoke middlewares the
pipeline-advance function is called exactly once on every exit path (their
`.finally(next)` runs regardless of outcome, and `handleError`'s
delegation branch — the only other `next` call — is unreachable at their
call sites); the authenticate middleware calls `next` exactly once on
engine success and zero times on engine failure. -/
theorem claim_C1_amended (inst : Instance) (r : ProtocolResponse)
    (oa ot : Outcome String) (orv : Outcome Unit) (t : String)
    (e : OAuthErr) :
    nextCount (authorize inst r oa) = 1 ∧
    nextCount (token inst r ot) = 1 ∧
    nextCount (revoke inst r orv) = 1 ∧
    nextCount (authenticate inst (Outcome.success t)) = 1 ∧
    nextCount (authenticate inst (Outcome.failure e)) = 0 := by
  refine ⟨?_, ?_, ?_, rfl, ?_⟩
  · cases oa with
    | success c =>
        show nextCount
          ((Act.setLocalsCode c :: handleResponse r) ++ [Act.callNext]) = 1
        rw [nextCount_append,
          nextCount_cons_other (Act.setLocalsCode c) _ rfl,
          nextCount_handleResponse, nextCount_singleton_next]
    | failure e2 =>
        show nextCount
          (handleError globalRecvUseErrorHandler e2 (some r) false ++
            [Act.callNext]) = 1
        rw [nextCount_append, nextCount_handleError_global,
          nextCount_singleton_next]
  · cases ot with
    | success t2 =>
        show nextCount
          ((Act.setLocalsToken t2 :: handleResponse r) ++ [Act.callNext]) = 1
        rw [nextCount_append,
          nextCount_cons_other (Act.setLocalsToken t2) _ rfl,
          nextCount_handleResponse, nextCount_singleton_next]
    | failure e2 =>
        show nextCount
          (handleError globalRecvUseErrorHandler e2 (some r) false ++
            [Act.callNext]) = 1
        rw [nextCount_append, nextCount_handleError_global,
          nextCount_singleton_next]
  · cases orv with
    | success u =>
        show nextCount (handleResponse r ++ [Act.callNext]) = 1
        rw [nextCount_append, nextCount_handleResponse,
          nextCount_singleton_next]
    | failure e2 =>
        by_cases hk : e2.kind = ErrorKind.invalidToken
        · have htr : revoke inst r (Outcome.failure e2) =
              ([Act.setLocalsInvalidTokenOnRevoke] ++
                handleError globalRecvUseErrorHandler e2 (some r) true) ++
              [Act.callNext] := by
            simp [revoke, hk]
          rw [htr, nextCount_append, nextCount_append,
            nextCount_cons_other Act.setLocalsInvalidTokenOnRevoke _ rfl,
            nextCount_nil, nextCount_handleError_global,
            nextCount_singleton_next]
        · have htr : revoke inst r (Outcome.failure e2) =
              handleError globalRecvUseErrorHandler e2 (some r) false ++
              [Act.callNext] := by
            simp [revoke, hk]
          rw [htr, nextCount_append, nextCount_handleError_global,
            nextCount_singleton_next]
  · exact nextCount_handleError_global e none false

/-- Claim C2: whenever the engine's revoke operation fails with an
`InvalidTokenError`, the middleware's only status write is 200 and its
only body write is the empty `res.send()`, for every configured
`useErrorHandler`, every engine-populated response, and every error
status code — no error status and no JSON error body is written. -/
theorem claim_C2 (inst : Instance) (r : ProtocolResponse) (e : OAuthErr)
    (h : e.kind = ErrorKind.invalidToken) :
    statusWrites (revoke inst r (Outcome.failure e)) = [some 200] ∧
    sendWrites (revoke inst r (Outcome.failure e)) = [Payload.empty] := by
  have htr : revoke inst r (Outcome.failure e) =
      [Act.setLocalsInvalidTokenOnRevoke, Act.setHeaders r.headers,
       Act.setStatus (some 200), Act.send Payload.empty, Act.callNext] := by
    simp [revoke, handleError, globalRecvUseErrorHandler, h]
  rw [htr]
  constructor <;> rfl

/-- Claim C2, witness: a revoke invocation on an adapter configured with
`useErrorHandler = true` whose engine fails with an `InvalidTokenError`
carrying status code 503 still results in exactly one status write (200)
and one empty body write. -/
theorem claim_C2_witness :
    statusWrites (revoke { useErrorHandler := true }
      { status := none, headers := [("cache-control", "no-store")],
        body := none }
      (Outcome.failure
        { kind := ErrorKind.invalidToken, code := 503,
          name := "invalid_token", message := "token is gone" })) =
      [some 200] ∧
    sendWrites (revoke { useErrorHandler := true }
      { status := none, headers := [("cache-control", "no-store")],
        body := none }
      (Outcome.failure
        { kind := ErrorKind.invalidToken, code := 503,
          name := "invalid_token", message := "token is gone" })) =
      [Payload.empty] :=
  claim_C2 { useErrorHandler := true }
    { status := none, headers := [("cache-control", "no-store")],
      body := none }
    { kind := ErrorKind.invalidToken, code := 503,
      name := "invalid_token", message := "token is gone" } rfl

/-- Claim C3: the claim (and the spec) say that with `useErrorHandler`
configured true a protocol error is handed to `next` and no direct HTTP
write occurs.  The code does the opposite: `handleError` is invoked as a
plain function, so its receiver is not the adapter instance and
`this.useErrorHandler` is absent; on an adapter constructed with
`useErrorHandler = true`, an authorize failure still performs the direct
header/status/body writes and never calls `next` with the error. -/
theorem claim_C3_code_divergence :
    (authorize { useErrorHandler := true }
      { status := none, headers := [("cache-control", "no-store")],
        body := none }
      (Outcome.failure
        { kind := ErrorKind.generic, code := 400,
          name := "invalid_request", message := "bad" })).filter
      isNextErr = [] ∧
    statusWrites (authorize { useErrorHandler := true }
      { status := none, headers := [("cache-control", "no-store")],
        body := none }
      (Outcome.failure
        { kind := ErrorKind.generic, code := 400,
          name := "invalid_request", message := "bad" })) = [some 400] ∧
    sendWrites (authorize { useErrorHandler := true }
      { status := none, headers := [("cache-control", "no-store")],
        body := none }
      (Outcome.failure
        { kind := ErrorKind.generic, code := 400,
          name := "invalid_request", message := "bad" })) =
      [Payload.errJson "invalid_request" "bad"] := by
  refine ⟨?_, ?_, ?_⟩ <;> decide

end EOAS

namespace EOAS

/-- Claim C4: the `invalidTokenOnRevoke` flag is request-scoped, never
adapter-instance-scoped.  A revoke invocation only writes `res.locals`
(request state, recorded in its trace) and leaves the instance state
untouched, so in a two-run comparison on the same instance the second
request's output is identical whatever the first request's outcome was —
in particular whether or not it failed with an `InvalidTokenError`. -/
theorem claim_C4 (s : InstState) (r1 r2 : ProtocolResponse)
    (o1 o1' o2 : Outcome Unit) :
    (revokeRun (revokeRun s r1 o1).1 r2 o2).2 =
      (revokeRun (revokeRun s r1 o1').1 r2 o2).2 := rfl

/-- Contrast (no claim): in the related instance-scoped variant shipped
after the separator in the source document, the flag set by a first
request's `InvalidTokenError` leaks into a second request on the same
adapter instance: the second request's generic 400 error is translated as
a 200/empty success instead of the JSON error body, so the two-run
comparison of claim C4 fails there. -/
theorem relatedVariant_revoke_flag_leaks :
    (RelatedVariant.revokeRun
        (RelatedVariant.revokeRun
          { useErrorHandler := false, invalidTokenOnRevoke := false }
          { status := none, headers := [], body := none }
          (Outcome.failure
            { kind := ErrorKind.invalidToken, code := 503,
              name := "invalid_token", message := "gone" })).1
        { status := none, headers := [], body := none }
        (Outcome.failure
          { kind := ErrorKind.generic, code := 400,
            name := "invalid_request", message := "bad" })).2 ≠
      (RelatedVariant.revokeRun
        (RelatedVariant.revokeRun
          { useErrorHandler := false, invalidTokenOnRevoke := false }
          { status := none, headers := [], body := none }
          (Outcome.success ())).1
        { status := none, headers := [], body := none }
        (Outcome.failure
          { kind := ErrorKind.generic, code := 400,
            name := "invalid_request", message := "bad" })).2 := by
  decide

/-- Claim C5: the Response Translator is total over the status space with
302 as its only special case.  If the status is 302 it reads the
`location` header, removes it from the mapping, applies the remaining
headers and issues a redirect to that location (so `location` is absent
from the applied header set); for every other status it applies all
headers, sets the status, and sends the body verbatim. -/
theorem claim_C5 (r : ProtocolResponse) :
    (r.status = some 302 →
       handleResponse r =
         [Act.setHeaders (deleteHeader r.headers "location"),
          Act.redirect (getHeader r.headers "location")] ∧
       getHeader (deleteHeader r.headers "location") "location" = none) ∧
    (¬ r.status = some 302 →
       handleResponse r =
         [Act.setHeaders r.headers, Act.setStatus r.status,
          Act.send (Payload.raw r.body)]) := by
  constructor
  · intro h
    exact ⟨by simp [handleResponse, h],
      getHeader_deleteHeader r.headers "location"⟩
  · intro h
    simp [handleResponse, h]

/-- Claim C5, witness: a 302 response with a `location` header redirects
to it and drops it from the applied headers; a 200 response takes the
generic branch. -/
theorem claim_C5_witness :
    (handleResponse
        { status := some 302,
          headers :=
            [("location", "https://client.example/cb"),
             ("pragma", "no-cache")],
          body := none } =
      [Act.setHeaders
         (deleteHeader
           [("location", "https://client.example/cb"),
            ("pragma", "no-cache")] "location"),
       Act.redirect
         (getHeader
           [("location", "https://client.example/cb"),
            ("pragma", "no-cache")] "location")] ∧
     getHeader
       (deleteHeader
         [("location", "https://client.example/cb"),
          ("pragma", "no-cache")] "location") "location" = none) ∧
    handleResponse
        { status := some 200, headers := [("pragma", "no-cache")],
          body := some "ok" } =
      [Act.setHeaders [("pragma", "no-cache")], Act.setStatus (some 200),
       Act.send (Payload.raw (some "ok"))] :=
  ⟨(claim_C5 _).1 rfl, (claim_C5 _).2 (by decide)⟩

/-- Claim C6: on an `UnauthorizedRequestError` with `useErrorHandler`
false, the Error Translator sets only the HTTP status to the error's code
and writes no body; where a `ProtocolResponse` was supplied (the
authorize/token/revoke flows) its headers are applied before the status
is set, and the authenticate flow (which supplies none) only sets the
status. -/
theorem claim_C6 (inst : Instance) (r : ProtocolResponse) (e : OAuthErr)
    (_h1 : inst.useErrorHandler = false)
    (h2 : e.kind = ErrorKind.unauthorizedRequest) :
    authenticate inst (Outcome.failure e) = [Act.setStatus (some e.code)] ∧
    authorize inst r (Outcome.failure e) =
      [Act.setHeaders r.headers, Act.setStatus (some e.code),
       Act.callNext] ∧
    token inst r (Outcome.failure e) =
      [Act.setHeaders r.headers, Act.setStatus (some e.code),
       Act.callNext] ∧
    revoke inst r (Outcome.failure e) =
      [Act.setHeaders r.headers, Act.setStatus (some e.code),
       Act.callNext] := by
  refine ⟨?_, ?_, ?_, ?_⟩ <;>
    simp [authenticate, authorize, token, revoke, handleError,
      globalRecvUseErrorHandler, h2]

/-- Claim C6, witness: a 401 `UnauthorizedRequestError` on an adapter with
`useErrorHandler = false`, with a `www-authenticate` header populated by
the engine. -/
theorem claim_C6_witness :
    authenticate { useErrorHandler := false }
      (Outcome.failure
        { kind := ErrorKind.unauthorizedRequest, code := 401,
          name := "unauthorized_request", message := "missing token" }) =
      [Act.setStatus (some 401)] ∧
    authorize { useErrorHandler := false }
      { status := none, headers := [("www-authenticate", "Bearer")],
        body := none }
      (Outcome.failure
        { kind := ErrorKind.unauthorizedRequest, code := 401,
          name := "unauthorized_request", message := "missing token" }) =
      [Act.setHeaders [("www-authenticate", "Bearer")],
       Act.setStatus (some 401), Act.callNext] ∧
    token { useErrorHandler := false }
      { status := none, headers := [("www-authenticate", "Bearer")],
        body := none }
      (Outcome.failure
        { kind := ErrorKind.unauthorizedRequest, code := 401,
          name := "unauthorized_request", message := "missing token" }) =
      [Act.setHeaders [("www-authenticate", "Bearer")],
       Act.setStatus (some 401), Act.callNext] ∧
    revoke { useErrorHandler := false }
      { status := none, headers := [("www-authenticate", "Bearer")],
        body := none }
      (Outcome.failure
        { kind := ErrorKind.unauthorizedRequest, code := 401,
          name := "unauthorized_request", message := "missing token" }) =
      [Act.setHeaders [("www-authenticate", "Bearer")],
       Act.setStatus (some 401), Act.callNext] :=
  claim_C6 { useErrorHandler := false }
    { status := none, headers := [("www-authenticate", "Bearer")],
      body := none }
    { kind := ErrorKind.unauthorizedRequest, code := 401,
      name := "unauthorized_request", message := "missing token" }
    rfl rfl

/-- Claim C7: for a protocol error that is not an
`UnauthorizedRequestError`, with the `invalidTokenOnRevoke` flag unset and
the `useErrorHandler` delegation branch not taken, the Error Translator's
only status write is the error's code and its only body write is the JSON
object whose `error` field is the error's name and whose
`error_description` field is the error's message. -/
theorem claim_C7 (recv : Option Bool) (e : OAuthErr)
    (resp : Option ProtocolResponse)
    (h1 : ¬ recv = some true)
    (h2 : ¬ e.kind = ErrorKind.unauthorizedRequest) :
    statusWrites (handleError recv e resp false) = [some e.code] ∧
    sendWrites (handleError recv e resp false) =
      [Payload.errJson e.name e.message] := by
  cases resp <;>
    simp [handleError, h1, h2, statusWrites, sendWrites]

/-- Claim C7, witness: the spec's example — `code=400`,
`name='invalid_request'`, `message='bad'` — yields a 400 status and the
body `\x7b error: 'invalid_request', error_description: 'bad' \x7d`. -/
theorem claim_C7_witness :
    statusWrites (handleError none
      { kind := ErrorKind.generic, code := 400,
        name := "invalid_request", message := "bad" } none false) =
      [some 400] ∧
    sendWrites (handleError none
      { kind := ErrorKind.generic, code := 400,
        name := "invalid_request", message := "bad" } none false) =
      [Payload.errJson "invalid_request" "bad"] :=
  claim_C7 none
    { kind := ErrorKind.generic, code := 400,
      name := "invalid_request", message := "bad" }
    none (by decide) (by decide)

/-- Claim C8: construction with no `model` option fails synchronously with
the `InvalidArgumentError`-kind error and never invokes the engine
constructor; construction with a `model` succeeds. -/
theorem claim_C8 (opts : Options) :
    (opts.model = none →
       (ExpressOAuthServer opts).1 =
         Except.error invalidArgumentMissingModel ∧
       invalidArgumentMissingModel.kind = ErrorKind.invalidArgument ∧
       (ExpressOAuthServer opts).2.filter isEngineCtor = []) ∧
    (¬ opts.model = none →
       (ExpressOAuthServer opts).1.isOk = true) := by
  constructor
  · intro h
    refine ⟨?_, rfl, ?_⟩ <;> simp [ExpressOAuthServer, h, isEngineCtor]
  · intro h
    cases hm : opts.model with
    | none => exact absurd hm h
    | some m => simp [ExpressOAuthServer, hm, Except.isOk, Except.toBool]

/-- Claim C8, witness: an empty configuration fails with the
`InvalidArgumentError` and records no engine-constructor event; a
configuration carrying a model constructs successfully. -/
theorem claim_C8_witness :
    ((ExpressOAuthServer
        { model := none, useErrorHandler := none, rest := [] }).1 =
       Except.error invalidArgumentMissingModel ∧
     invalidArgumentMissingModel.kind = ErrorKind.invalidArgument ∧
     (ExpressOAuthServer
        { model := none, useErrorHandler := none, rest := [] }).2.filter
       isEngineCtor = []) ∧
    (ExpressOAuthServer
       { model := some "modelObject", useErrorHandler := some true,
         rest := [("accessTokenLifetime", "3600")] }).1.isOk = true :=
  ⟨(claim_C8 _).1 rfl, (claim_C8 _).2 (by decide)⟩

/-- Claim C9: when the engine's token validation succeeds with token `t`,
the authenticate middleware writes `res.locals.oauth = \x7b token: t \x7d`
and then calls `next()` — the side-channel write precedes the single
pipeline advance, which happens exactly via this success path. -/
theorem claim_C9 (inst : Instance) (t : String) :
    authenticate inst (Outcome.success t) =
      [Act.setLocalsToken t, Act.callNext] ∧
    nextCount (authenticate inst (Outcome.success t)) = 1 :=
  ⟨rfl, rfl⟩

/-- Claim C10: when the engine operation of the authorize or token flow
fails, the `res.locals.oauth` side-channel slot is never written — the
`.tap` that would attach the code or token runs only on fulfilment, and
the error path performs no locals write to that slot. -/
theorem claim_C10 (inst : Instance) (r : ProtocolResponse) (e : OAuthErr) :
    (authorize inst r (Outcome.failure e)).filter writesOAuthLocals = [] ∧
    (token inst r (Outcome.failure e)).filter writesOAuthLocals = [] := by
  have key : (handleError globalRecvUseErrorHandler e (some r) false ++
      [Act.callNext]).filter writesOAuthLocals = [] := by
    rw [List.filter_append, handleError_global_no_oauth_locals]
    rfl
  exact ⟨key, key⟩

end EOAS
